import Mathlib

/-!
Shallow embedding of `scripts/validate-with-pyiceberg.py`.

The script validates an Apache Iceberg table: it checks that the warehouse
path exists, loads the table through a filesystem catalog, inspects the
schema's field ids, the snapshot list and the current snapshot, scans the
data when a current snapshot exists, and prints additional metadata.
Every `print` of the script is modelled as a `Finding` (severity taken from
the printed marker: an X-mark line is an ERROR, a warning-sign line is a
WARNING, anything else is INFO; the category follows the section of the
script the print belongs to).  External collaborators (the catalog, the
data reader) are modelled by an `Env` record that fixes the point-in-time
outcome of every external call; exceptions those calls may raise are the
`PyExc` type and are threaded through `Except`, with the script's
`try/except` handlers modelled in `validate_iceberg_table`.  A trace of
external calls (`ExtCall`) records whether the catalog resolution and the
scan were attempted.
-/

namespace ValidatePyIceberg

/-- Severity of one validation message, per the printed marker. -/
inductive Severity
  | error
  | warning
  | info
deriving DecidableEq

/-- Which section of the validator a message belongs to. -/
inductive Category
  | metadata
  | schema
  | snapshot
  | scan
deriving DecidableEq

/-- One validation result: one printed line of the script. -/
structure Finding where
  severity : Severity
  category : Category
  message : String
deriving DecidableEq

/-- A schema field: `field.field_id`, `field.name`, `field.field_type`. -/
structure Field where
  field_id : Int
  name : String
  field_type : String
deriving DecidableEq

/-- The table schema: `schema.schema_id` and `schema.fields`. -/
structure Schema where
  schema_id : Int
  fields : List Field
deriving DecidableEq

/-- One snapshot: id, timestamp and the printed form of its summary. -/
structure Snapshot where
  snapshot_id : Int
  timestamp_ms : Int
  summary : String
deriving DecidableEq

/-- `table.metadata`: format version, uuid, snapshot list and the
current-snapshot pointer, plus the extra metadata the script prints. -/
structure TableMetadata where
  format_version : Int
  table_uuid : String
  last_sequence_number : Int
  last_updated_ms : Int
  snapshots : List Snapshot
  current_snapshot : Option Snapshot
deriving DecidableEq

/-- The loaded table handle: location, metadata, schema, properties
(modelled by their printed form). -/
structure IcebergTable where
  location : String
  metadata : TableMetadata
  schema : Schema
  properties : String
deriving DecidableEq

/-- The pandas frame `scan.to_pandas()` produces: column names, row count,
dtypes per column, and the printed form of `df.head()`. -/
structure DataFrame where
  columns : List String
  nrows : Nat
  dtypes : List (String × String)
  headString : String
deriving DecidableEq

/-- Exceptions an external call can raise, matching the script's
`except` clauses: `NoSuchTableError`, `ModuleNotFoundError`, anything else. -/
inductive PyExc
  | noSuchTable
  | moduleNotFound (msg : String)
  | other (msg : String)
deriving DecidableEq

/-- External calls the validator can make: catalog table resolution and the
data scan. -/
inductive ExtCall
  | loadTable
  | scan
deriving DecidableEq

instance {ε α : Type} [DecidableEq ε] [DecidableEq α] : DecidableEq (Except ε α) := fun a b =>
  match a, b with
  | .ok x, .ok y => decidable_of_iff (x = y) (by simp)
  | .error x, .error y => decidable_of_iff (x = y) (by simp)
  | .ok _, .error _ => isFalse (by simp)
  | .error _, .ok _ => isFalse (by simp)

/-- Point-in-time outcome of every external interaction: whether the
warehouse path exists, what loading the table yields, whether listing the
snapshots raises, what the scan yields, and whether the final metadata
printing raises. -/
structure Env where
  pathExists : Bool
  loadResult : Except PyExc IcebergTable
  snapshotsFault : Option PyExc
  scanResult : Except PyExc DataFrame
  metaFault : Option PyExc
deriving DecidableEq

/-- Result of `validate_iceberg_table`: the returned boolean, the ordered
findings (printed lines) and the external calls that were attempted. -/
structure RunResult where
  passed : Bool
  findings : List Finding
  calls : List ExtCall
deriving DecidableEq

/-- Outcome of the `try`-block body: findings printed so far, calls made,
and either a returned boolean or a raised exception. -/
structure BodyResult where
  findings : List Finding
  calls : List ExtCall
  outcome : Except PyExc Bool
deriving DecidableEq

/- Message builders, one per interpolated print of the script. -/

def warehouseMissingMsg (wp : String) : String :=
  s!"Warehouse path does not exist: {wp}"

def loadedMsg (tn : String) : String :=
  s!"Successfully loaded table: {tn}"

def locationMsg (loc : String) : String :=
  s!"Location: {loc}"

def formatVersionMsg (v : Int) : String :=
  s!"Format version: {v}"

def tableUuidMsg (u : String) : String :=
  s!"Table UUID: {u}"

def formatWarnMsg (v : Int) : String :=
  s!"WARNING: Format version is {v}, expected 2"

def schemaIdMsg (i : Int) : String :=
  s!"Schema ID: {i}"

def fieldCountMsg (n : Nat) : String :=
  s!"Field count: {n}"

def fieldInfoMsg (i : Int) (nm ty : String) : String :=
  s!"Field {i}: {nm} ({ty})"

def invalidFieldIdMsg (i : Int) : String :=
  s!"WARNING: Invalid field ID {i}"

def snapshotCountMsg (n : Nat) : String :=
  s!"Snapshots: {n}"

def snapshotIdMsg (i : Int) : String :=
  s!"Snapshot {i}"

def snapshotTimestampMsg (t : Int) : String :=
  s!"Timestamp: {t}"

def snapshotSummaryMsg (s : String) : String :=
  s!"Summary: {s}"

def currentSnapshotMsg (i : Int) : String :=
  s!"Current snapshot: {i}"

def recordCountMsg (n : Nat) : String :=
  s!"Record count: {n}"

def columnsMsg (cols : List String) : String :=
  let cs := toString cols
  s!"Columns: {cs}"

def columnTypeMsg (c d : String) : String :=
  s!"{c}: {d}"

def lastSequenceNumberMsg (n : Int) : String :=
  s!"Last sequence number: {n}"

def lastUpdatedMsg (n : Int) : String :=
  s!"Last updated: {n}"

def propertiesMsg (p : String) : String :=
  s!"Properties: {p}"

def tableValidMsg (tn : String) : String :=
  s!"Table \x27{tn}\x27 is valid and compatible with PyIceberg!"

def tableNotFoundMsg (tn : String) : String :=
  s!"Table not found: {tn}"

def verifyTableMsg (wp : String) : String :=
  s!"Verify the table exists in warehouse: {wp}"

def missingModuleMsg (m : String) : String :=
  s!"Missing Python module: {m}"

def validationFailedMsg (m : String) : String :=
  s!"Validation failed: {m}"

/-- Lines 48-55 of the script: the load summary prints (INFO, metadata)
plus the format-version warning when `format_version != 2`. -/
def loadFindings (t : IcebergTable) (tn : String) : List Finding :=
  [⟨.info, .metadata, loadedMsg tn⟩,
   ⟨.info, .metadata, locationMsg t.location⟩,
   ⟨.info, .metadata, formatVersionMsg t.metadata.format_version⟩,
   ⟨.info, .metadata, tableUuidMsg t.metadata.table_uuid⟩] ++
  (if t.metadata.format_version ≠ 2 then
    [⟨.warning, .metadata, formatWarnMsg t.metadata.format_version⟩]
  else [])

/-- Lines 59-61: the schema-section header prints. -/
def schemaHeaderFindings (s : Schema) : List Finding :=
  [⟨.info, .schema, "Schema validation:"⟩,
   ⟨.info, .schema, schemaIdMsg s.schema_id⟩,
   ⟨.info, .schema, fieldCountMsg s.fields.length⟩]

/-- Lines 65-68: the prints of one iteration of the field loop — the INFO
line for the field, and the WARNING line when `field_id <= 0`. -/
def fieldFindings (f : Field) : List Finding :=
  ⟨.info, .schema, fieldInfoMsg f.field_id f.name f.field_type⟩ ::
  (if f.field_id ≤ 0 then
    [⟨.warning, .schema, invalidFieldIdMsg f.field_id⟩]
  else [])

/-- Lines 63-68: the field loop, returning the printed findings in field
order and the `field_id_issues` flag. -/
def fieldLoop : List Field → List Finding × Bool
  | [] => ([], false)
  | f :: rest =>
    let tail := fieldLoop rest
    (fieldFindings f ++ tail.1, decide (f.field_id ≤ 0) || tail.2)

/-- Line 71: the run-level X-mark line printed when `field_id_issues`. -/
def fieldIssuesFinding : Finding :=
  ⟨.error, .schema, "Field ID issues detected - schema evolution may not work correctly"⟩

/-- Lines 81-83: the three prints for one snapshot. -/
def snapshotFindings (sn : Snapshot) : List Finding :=
  [⟨.info, .snapshot, snapshotIdMsg sn.snapshot_id⟩,
   ⟨.info, .snapshot, snapshotTimestampMsg sn.timestamp_ms⟩,
   ⟨.info, .snapshot, snapshotSummaryMsg sn.summary⟩]

/-- Lines 80-83: the loop over the snapshot list, printing three lines per
snapshot in sequence order. -/
def snapshotLoop : List Snapshot → List Finding
  | [] => []
  | sn :: rest => snapshotFindings sn ++ snapshotLoop rest

/-- Lines 76-83: the snapshot-list section — the empty-table WARNING, or
the count line followed by the per-snapshot prints in sequence order. -/
def snapshotListFindings (snaps : List Snapshot) : List Finding :=
  if snaps.isEmpty then
    [⟨.warning, .snapshot, "WARNING: No snapshots found (table is empty)"⟩]
  else
    ⟨.info, .snapshot, snapshotCountMsg snaps.length⟩ :: snapshotLoop snaps

/-- Lines 94-104: the prints after a successful `scan.to_pandas()`. -/
def scanFindings (df : DataFrame) : List Finding :=
  [⟨.info, .scan, recordCountMsg df.nrows⟩,
   ⟨.info, .scan, columnsMsg df.columns⟩] ++
  (if df.nrows > 0 then
    [⟨.info, .scan, "Sample data (first 5 rows):"⟩,
     ⟨.info, .scan, df.headString⟩,
     ⟨.info, .scan, "Column types:"⟩] ++
    df.dtypes.map (fun cd => ⟨.info, .scan, columnTypeMsg cd.1 cd.2⟩)
  else [])

/-- Lines 109-115: the additional-metadata prints and the final success
lines, all INFO. -/
def metaTailFindings (t : IcebergTable) (tn : String) : List Finding :=
  [⟨.info, .metadata, "Additional metadata:"⟩,
   ⟨.info, .metadata, lastSequenceNumberMsg t.metadata.last_sequence_number⟩,
   ⟨.info, .metadata, lastUpdatedMsg t.metadata.last_updated_ms⟩,
   ⟨.info, .metadata, propertiesMsg t.properties⟩,
   ⟨.info, .metadata, tableValidMsg tn⟩,
   ⟨.info, .metadata, "All checks passed. The table structure conforms to Iceberg v2 specification."⟩]

/-- Lines 108-116: the additional-metadata step; it may raise (the
attribute accesses and prints are inside the `try`), otherwise it appends
`metaTailFindings` and returns `True`. -/
def finishMeta (env : Env) (t : IcebergTable) (tn : String)
    (fs : List Finding) (calls : List ExtCall) : BodyResult :=
  match env.metaFault with
  | some e => ⟨fs, calls, .error e⟩
  | none => ⟨fs ++ metaTailFindings t tn, calls, .ok true⟩

/-- Lines 30-116: the body of the `try` block of
`validate_iceberg_table`, before exception handling. -/
def validateBody (env : Env) (wp tn : String) : BodyResult :=
  if !env.pathExists then
    ⟨[⟨.error, .metadata, warehouseMissingMsg wp⟩], [], .ok false⟩
  else
    match env.loadResult with
    | .error e => ⟨[], [.loadTable], .error e⟩
    | .ok table =>
      let fs1 := loadFindings table tn ++ schemaHeaderFindings table.schema ++
        (fieldLoop table.schema.fields).1
      if (fieldLoop table.schema.fields).2 then
        ⟨fs1 ++ [fieldIssuesFinding], [.loadTable], .ok false⟩
      else
        match env.snapshotsFault with
        | some e => ⟨fs1, [.loadTable], .error e⟩
        | none =>
          let fs2 := fs1 ++ snapshotListFindings table.metadata.snapshots
          match table.metadata.current_snapshot with
          | some cs =>
            let fs3 := fs2 ++
              [⟨.info, .snapshot, currentSnapshotMsg cs.snapshot_id⟩,
               ⟨.info, .scan, "Scanning table data..."⟩]
            match env.scanResult with
            | .error e => ⟨fs3, [.loadTable, .scan], .error e⟩
            | .ok df =>
              finishMeta env table tn (fs3 ++ scanFindings df) [.loadTable, .scan]
          | none =>
            finishMeta env table tn
              (fs2 ++ [⟨.warning, .snapshot, "No current snapshot (empty table)"⟩])
              [.loadTable]

/-- Lines 118-130: the `except` handlers — each prints an ERROR line (plus
a detail line for the first two handlers) and returns `False`. -/
def handlerFindings (e : PyExc) (wp tn : String) : List Finding :=
  match e with
  | .noSuchTable =>
    [⟨.error, .metadata, tableNotFoundMsg tn⟩,
     ⟨.info, .metadata, verifyTableMsg wp⟩]
  | .moduleNotFound m =>
    [⟨.error, .metadata, missingModuleMsg m⟩,
     ⟨.info, .metadata, "Install with: pip install pyiceberg pandas"⟩]
  | .other m =>
    [⟨.error, .metadata, validationFailedMsg m⟩]

/-- The message of the single ERROR line each handler prints. -/
def handlerErrorMsg (e : PyExc) (tn : String) : String :=
  match e with
  | .noSuchTable => tableNotFoundMsg tn
  | .moduleNotFound m => missingModuleMsg m
  | .other m => validationFailedMsg m

/-- Lines 19-130: `validate_iceberg_table(warehouse_path, table_name)` —
the `try` body, with every raised exception converted by the matching
handler into findings and a `False` return. -/
def validate_iceberg_table (env : Env) (wp tn : String) : RunResult :=
  let b := validateBody env wp tn
  match b.outcome with
  | .ok ok => ⟨ok, b.findings, b.calls⟩
  | .error e => ⟨false, b.findings ++ handlerFindings e wp tn, b.calls⟩

/-- Result of `main`: the process exit status and whether
`validate_iceberg_table` was invoked at all. -/
structure MainResult where
  exit_code : Nat
  attempted : Bool
deriving DecidableEq

/-- Lines 132-162: `main()` — `argv` is the full `sys.argv` including the
program name; with a wrong argument count it exits 1 without validating,
otherwise it exits 0 exactly when validation returned `True`. -/
def main_run (env : Env) (argv : List String) : MainResult :=
  if argv.length ≠ 3 then
    ⟨1, false⟩
  else
    let wh := argv.getD 1 ""
    let tb := argv.getD 2 ""
    let success := (validate_iceberg_table env wh tb).passed
    ⟨if success then 0 else 1, true⟩

/-- Two consecutive runs of the validator against the same unmodified
point-in-time table state. -/
def runTwice (env : Env) (wp tn : String) : RunResult × RunResult :=
  (validate_iceberg_table env wp tn, validate_iceberg_table env wp tn)

/-- No finding of the list has severity ERROR. -/
def noError (l : List Finding) : Prop :=
  ∀ g ∈ l, g.severity ≠ Severity.error

/-- No finding of the list has the given category. -/
def noCategory (c : Category) (l : List Finding) : Prop :=
  ∀ g ∈ l, g.category ≠ c

instance : DecidablePred noError := fun l =>
  List.decidableBAll _ l

instance (c : Category) : DecidablePred (noCategory c) := fun l =>
  List.decidableBAll _ l

/-! Helper lemmas about the pieces of the finding stream. -/

lemma noError_append {a b : List Finding} :
    noError (a ++ b) ↔ noError a ∧ noError b :=
  List.forall_mem_append

lemma noCategory_append {c : Category} {a b : List Finding} :
    noCategory c (a ++ b) ↔ noCategory c a ∧ noCategory c b :=
  List.forall_mem_append

lemma noError_loadFindings (t : IcebergTable) (tn : String) :
    noError (loadFindings t tn) := by
  intro g hg
  unfold loadFindings at hg
  rcases List.mem_append.mp hg with h | h
  · simp at h
    rcases h with rfl | rfl | rfl | rfl <;> simp
  · split at h
    · simp at h
      subst h
      simp
    · cases h

lemma cat_loadFindings (t : IcebergTable) (tn : String) :
    ∀ g ∈ loadFindings t tn, g.category = Category.metadata := by
  intro g hg
  unfold loadFindings at hg
  rcases List.mem_append.mp hg with h | h
  · simp at h
    rcases h with rfl | rfl | rfl | rfl <;> rfl
  · split at h
    · simp at h
      subst h
      rfl
    · cases h

lemma noError_schemaHeader (s : Schema) :
    noError (schemaHeaderFindings s) := by
  intro g hg
  simp [schemaHeaderFindings] at hg
  rcases hg with rfl | rfl | rfl <;> simp

lemma cat_schemaHeader (s : Schema) :
    ∀ g ∈ schemaHeaderFindings s, g.category = Category.schema := by
  intro g hg
  simp [schemaHeaderFindings] at hg
  rcases hg with rfl | rfl | rfl <;> rfl

lemma noError_fieldFindings (f : Field) : noError (fieldFindings f) := by
  intro g hg
  unfold fieldFindings at hg
  rcases List.mem_cons.mp hg with rfl | h
  · simp
  · split at h
    · simp at h
      subst h
      simp
    · cases h

lemma cat_fieldFindings (f : Field) :
    ∀ g ∈ fieldFindings f, g.category = Category.schema := by
  intro g hg
  unfold fieldFindings at hg
  rcases List.mem_cons.mp hg with rfl | h
  · rfl
  · split at h
    · simp at h
      subst h
      rfl
    · cases h

lemma fieldLoop_cons (f : Field) (rest : List Field) :
    fieldLoop (f :: rest) =
      (fieldFindings f ++ (fieldLoop rest).1,
       decide (f.field_id ≤ 0) || (fieldLoop rest).2) := rfl

lemma fieldLoop_flag (fields : List Field) :
    (fieldLoop fields).2 = fields.any (fun f => decide (f.field_id ≤ 0)) := by
  induction fields with
  | nil => rfl
  | cons f rest ih => simp [fieldLoop_cons, ih]

lemma fieldLoop_flag_true {fields : List Field} {f : Field}
    (hf : f ∈ fields) (hid : f.field_id ≤ 0) :
    (fieldLoop fields).2 = true := by
  rw [fieldLoop_flag, List.any_eq_true]
  exact ⟨f, hf, decide_eq_true hid⟩

lemma fieldLoop_flag_false {fields : List Field}
    (h : ∀ f ∈ fields, 0 < f.field_id) :
    (fieldLoop fields).2 = false := by
  rw [fieldLoop_flag, List.any_eq_false]
  intro f hf
  simpa using not_le.mpr (h f hf)

lemma fieldLoop_mem {fields : List Field} {f : Field} (hf : f ∈ fields) :
    ∀ g ∈ fieldFindings f, g ∈ (fieldLoop fields).1 := by
  induction fields with
  | nil => cases hf
  | cons a rest ih =>
    intro g hg
    rw [fieldLoop_cons]
    rcases List.mem_cons.mp hf with rfl | hf2
    · exact List.mem_append.mpr (Or.inl hg)
    · exact List.mem_append.mpr (Or.inr (ih hf2 g hg))

lemma noError_fieldLoop (fields : List Field) :
    noError (fieldLoop fields).1 := by
  induction fields with
  | nil => intro g hg; cases hg
  | cons f rest ih =>
    rw [fieldLoop_cons]
    exact noError_append.mpr ⟨noError_fieldFindings f, ih⟩

lemma cat_fieldLoop (fields : List Field) :
    ∀ g ∈ (fieldLoop fields).1, g.category = Category.schema := by
  induction fields with
  | nil => intro g hg; cases hg
  | cons f rest ih =>
    intro g hg
    rw [fieldLoop_cons] at hg
    rcases List.mem_append.mp hg with h | h
    · exact cat_fieldFindings f g h
    · exact ih g h

lemma noError_snapshotFindings (sn : Snapshot) :
    noError (snapshotFindings sn) := by
  intro g hg
  simp [snapshotFindings] at hg
  rcases hg with rfl | rfl | rfl <;> simp

lemma noError_snapshotLoop (snaps : List Snapshot) :
    noError (snapshotLoop snaps) := by
  induction snaps with
  | nil => intro g hg; cases hg
  | cons sn rest ih =>
    exact noError_append.mpr ⟨noError_snapshotFindings sn, ih⟩

lemma noError_snapshotList (snaps : List Snapshot) :
    noError (snapshotListFindings snaps) := by
  unfold snapshotListFindings
  split
  · intro g hg
    simp at hg
    subst hg
    simp
  · intro g hg
    rcases List.mem_cons.mp hg with rfl | h
    · simp
    · exact noError_snapshotLoop snaps g h

lemma noError_scanFindings (df : DataFrame) :
    noError (scanFindings df) := by
  intro g hg
  unfold scanFindings at hg
  rcases List.mem_append.mp hg with h | h
  · simp at h
    rcases h with rfl | rfl <;> simp
  · split at h
    · rcases List.mem_append.mp h with h2 | h2
      · simp at h2
        rcases h2 with rfl | rfl | rfl <;> simp
      · rcases List.mem_map.mp h2 with ⟨cd, _, rfl⟩
        simp
    · cases h

lemma noError_metaTail (t : IcebergTable) (tn : String) :
    noError (metaTailFindings t tn) := by
  intro g hg
  simp [metaTailFindings] at hg
  rcases hg with rfl | rfl | rfl | rfl | rfl | rfl <;> simp

/-! Shape lemmas: the full run result on each execution path. -/

lemma validate_noPath (env : Env) (wp tn : String)
    (h : env.pathExists = false) :
    validate_iceberg_table env wp tn =
      ⟨false, [⟨.error, .metadata, warehouseMissingMsg wp⟩], []⟩ := by
  simp [validate_iceberg_table, validateBody, h]

lemma validate_loadError (env : Env) (wp tn : String) (e : PyExc)
    (hp : env.pathExists = true) (hl : env.loadResult = .error e) :
    validate_iceberg_table env wp tn =
      ⟨false, handlerFindings e wp tn, [.loadTable]⟩ := by
  cases e <;> simp [validate_iceberg_table, validateBody, hp, hl]

lemma validate_fieldIssues (env : Env) (wp tn : String) (t : IcebergTable)
    (hp : env.pathExists = true) (hl : env.loadResult = .ok t)
    (hflag : (fieldLoop t.schema.fields).2 = true) :
    validate_iceberg_table env wp tn =
      ⟨false,
       loadFindings t tn ++ schemaHeaderFindings t.schema ++
         (fieldLoop t.schema.fields).1 ++ [fieldIssuesFinding],
       [.loadTable]⟩ := by
  simp [validate_iceberg_table, validateBody, hp, hl, hflag]

lemma validate_currentNone (env : Env) (wp tn : String) (t : IcebergTable)
    (hp : env.pathExists = true) (hl : env.loadResult = .ok t)
    (hflag : (fieldLoop t.schema.fields).2 = false)
    (hsf : env.snapshotsFault = none)
    (hcur : t.metadata.current_snapshot = none)
    (hmf : env.metaFault = none) :
    validate_iceberg_table env wp tn =
      ⟨true,
       loadFindings t tn ++ schemaHeaderFindings t.schema ++
         (fieldLoop t.schema.fields).1 ++
         snapshotListFindings t.metadata.snapshots ++
         [⟨.warning, .snapshot, "No current snapshot (empty table)"⟩] ++
         metaTailFindings t tn,
       [.loadTable]⟩ := by
  simp [validate_iceberg_table, validateBody, finishMeta, hp, hl, hflag, hsf,
    hcur, hmf]

lemma validate_currentSome (env : Env) (wp tn : String) (t : IcebergTable)
    (cs : Snapshot) (df : DataFrame)
    (hp : env.pathExists = true) (hl : env.loadResult = .ok t)
    (hflag : (fieldLoop t.schema.fields).2 = false)
    (hsf : env.snapshotsFault = none)
    (hcur : t.metadata.current_snapshot = some cs)
    (hscan : env.scanResult = .ok df)
    (hmf : env.metaFault = none) :
    validate_iceberg_table env wp tn =
      ⟨true,
       loadFindings t tn ++ schemaHeaderFindings t.schema ++
         (fieldLoop t.schema.fields).1 ++
         snapshotListFindings t.metadata.snapshots ++
         [⟨.info, .snapshot, currentSnapshotMsg cs.snapshot_id⟩,
          ⟨.info, .scan, "Scanning table data..."⟩] ++
         scanFindings df ++ metaTailFindings t tn,
       [.loadTable, .scan]⟩ := by
  simp [validate_iceberg_table, validateBody, finishMeta, hp, hl, hflag, hsf,
    hcur, hscan, hmf]

lemma validate_calls_currentSome (env : Env) (wp tn : String)
    (t : IcebergTable) (cs : Snapshot)
    (hp : env.pathExists = true) (hl : env.loadResult = .ok t)
    (hflag : (fieldLoop t.schema.fields).2 = false)
    (hsf : env.snapshotsFault = none)
    (hcur : t.metadata.current_snapshot = some cs) :
    (validate_iceberg_table env wp tn).calls = [.loadTable, .scan] := by
  cases hscan : env.scanResult with
  | error e =>
    cases e <;>
      simp [validate_iceberg_table, validateBody, hp, hl, hflag, hsf, hcur,
        hscan]
  | ok df =>
    cases hmf : env.metaFault with
    | none =>
      simp [validate_iceberg_table, validateBody, finishMeta, hp, hl, hflag,
        hsf, hcur, hscan, hmf]
    | some e =>
      cases e <;>
        simp [validate_iceberg_table, validateBody, finishMeta, hp, hl, hflag,
          hsf, hcur, hscan, hmf]

lemma validate_calls_currentNone (env : Env) (wp tn : String)
    (t : IcebergTable)
    (hp : env.pathExists = true) (hl : env.loadResult = .ok t)
    (hflag : (fieldLoop t.schema.fields).2 = false)
    (hsf : env.snapshotsFault = none)
    (hcur : t.metadata.current_snapshot = none) :
    (validate_iceberg_table env wp tn).calls = [.loadTable] := by
  cases hmf : env.metaFault with
  | none =>
    simp [validate_iceberg_table, validateBody, finishMeta, hp, hl, hflag,
      hsf, hcur, hmf]
  | some e =>
    cases e <;>
      simp [validate_iceberg_table, validateBody, finishMeta, hp, hl, hflag,
        hsf, hcur, hmf]

lemma validate_mem_warnNoCurrent (env : Env) (wp tn : String)
    (t : IcebergTable)
    (hp : env.pathExists = true) (hl : env.loadResult = .ok t)
    (hflag : (fieldLoop t.schema.fields).2 = false)
    (hsf : env.snapshotsFault = none)
    (hcur : t.metadata.current_snapshot = none) :
    (⟨.warning, .snapshot, "No current snapshot (empty table)"⟩ : Finding) ∈
      (validate_iceberg_table env wp tn).findings := by
  cases hmf : env.metaFault with
  | none =>
    simp [validate_iceberg_table, validateBody, finishMeta, hp, hl, hflag,
      hsf, hcur, hmf]
  | some e =>
    cases e <;>
      simp [validate_iceberg_table, validateBody, finishMeta, hp, hl, hflag,
        hsf, hcur, hmf]

lemma noError_warn_single (c : Category) (m : String) :
    noError [⟨.warning, c, m⟩] := by
  intro g hg
  simp at hg
  subst hg
  simp

lemma noError_info_pair (c1 : Category) (m1 : String) (c2 : Category)
    (m2 : String) : noError [⟨.info, c1, m1⟩, ⟨.info, c2, m2⟩] := by
  intro g hg
  simp at hg
  rcases hg with rfl | rfl <;> simp

/-! Concrete point-in-time table states used to exercise the theorems. -/

def sampleGoodField : Field := ⟨1, "id", "long"⟩

def sampleGoodField2 : Field := ⟨2, "amount", "double"⟩

def sampleBadField : Field := ⟨0, "id", "long"⟩

def sampleSnap : Snapshot := ⟨101, 1700000000000, "operation=append"⟩

def sampleDF : DataFrame :=
  ⟨["id", "amount"], 3, [("id", "int64"), ("amount", "float64")], "sample rows"⟩

/-- A well-formed v2 table: positive field ids, one snapshot, current set. -/
def sampleGoodTable : IcebergTable :=
  ⟨"/tmp/wh/orders",
   ⟨2, "uuid-1234", 1, 1700000000000, [sampleSnap], some sampleSnap⟩,
   ⟨0, [sampleGoodField, sampleGoodField2]⟩, "props"⟩

/-- Same table but with a zero field id in the schema. -/
def sampleBadFieldTable : IcebergTable :=
  ⟨"/tmp/wh/orders",
   ⟨2, "uuid-1234", 1, 1700000000000, [sampleSnap], some sampleSnap⟩,
   ⟨0, [sampleBadField, sampleGoodField2]⟩, "props"⟩

/-- An empty table: no snapshots, no current snapshot. -/
def sampleEmptyTable : IcebergTable :=
  ⟨"/tmp/wh/orders",
   ⟨2, "uuid-1234", 0, 1700000000000, [], none⟩,
   ⟨0, [sampleGoodField, sampleGoodField2]⟩, "props"⟩

/-- A table whose snapshot list is empty although a current snapshot is
reported — the state separating the snapshot-list check from the
current-snapshot check. -/
def sampleCurNoListTable : IcebergTable :=
  ⟨"/tmp/wh/orders",
   ⟨2, "uuid-1234", 1, 1700000000000, [], some sampleSnap⟩,
   ⟨0, [sampleGoodField, sampleGoodField2]⟩, "props"⟩

def envGood : Env := ⟨true, .ok sampleGoodTable, none, .ok sampleDF, none⟩

def envBadField : Env := ⟨true, .ok sampleBadFieldTable, none, .ok sampleDF, none⟩

def envNoPath : Env := ⟨false, .ok sampleGoodTable, none, .ok sampleDF, none⟩

def envNoTable : Env := ⟨true, .error .noSuchTable, none, .ok sampleDF, none⟩

def envEmpty : Env := ⟨true, .ok sampleEmptyTable, none, .ok sampleDF, none⟩

def envCurNoList : Env := ⟨true, .ok sampleCurNoListTable, none, .ok sampleDF, none⟩

def envRaise : Env := ⟨true, .error (.other "boom"), none, .ok sampleDF, none⟩

/-! The claims. -/

/-- C1: for every schema containing at least one field with
`field_id <= 0` (on a run where the warehouse path exists and the
metadata loads), the run's verdict is `false`, a WARNING-severity finding
for that field is present in the report, and the findings the field loop
emits for that field contain no ERROR-severity finding. -/
theorem c1_nonpositive_field_id_fails_with_warning (env : Env)
    (wp tn : String) (t : IcebergTable) (f : Field)
    (hp : env.pathExists = true) (hl : env.loadResult = .ok t)
    (hf : f ∈ t.schema.fields) (hid : f.field_id ≤ 0) :
    (validate_iceberg_table env wp tn).passed = false ∧
    (⟨.warning, .schema, invalidFieldIdMsg f.field_id⟩ : Finding) ∈
      (validate_iceberg_table env wp tn).findings ∧
    noError (fieldFindings f) := by
  have hflag := fieldLoop_flag_true hf hid
  have hshape := validate_fieldIssues env wp tn t hp hl hflag
  have hpass : (validate_iceberg_table env wp tn).passed = false := by
    rw [hshape]
  have hfind : (validate_iceberg_table env wp tn).findings =
      loadFindings t tn ++ schemaHeaderFindings t.schema ++
        (fieldLoop t.schema.fields).1 ++ [fieldIssuesFinding] := by
    rw [hshape]
  have hmem : (⟨.warning, .schema, invalidFieldIdMsg f.field_id⟩ : Finding) ∈
      (fieldLoop t.schema.fields).1 := by
    apply fieldLoop_mem hf
    unfold fieldFindings
    simp [hid]
  refine ⟨hpass, ?_, noError_fieldFindings f⟩
  rw [hfind]
  simp only [List.mem_append]
  exact Or.inl (Or.inr hmem)

/-- C1 witness: a schema whose first field has id 0 on an otherwise
healthy table. -/
theorem c1_witness :
    sampleBadField ∈ sampleBadFieldTable.schema.fields ∧
    sampleBadField.field_id ≤ 0 ∧
    (validate_iceberg_table envBadField "/tmp/wh" "orders").passed = false ∧
    (⟨.warning, .schema, invalidFieldIdMsg sampleBadField.field_id⟩ :
      Finding) ∈
      (validate_iceberg_table envBadField "/tmp/wh" "orders").findings ∧
    noError (fieldFindings sampleBadField) :=
  ⟨by decide, by decide,
   c1_nonpositive_field_id_fails_with_warning envBadField "/tmp/wh" "orders"
     sampleBadFieldTable sampleBadField rfl rfl (by decide) (by decide)⟩

/-- C2 counterexample: on a table with a zero field id, one snapshot, a
current snapshot and a readable scan, the run stops at the field-id check:
the scan is never attempted, no snapshot-category finding appears, and the
run fails — so the field-id condition is terminal, not non-terminal as the
claim states. -/
theorem c2_counterexample :
    sampleBadFieldTable.metadata.current_snapshot = some sampleSnap ∧
    (validate_iceberg_table envBadField "/tmp/wh" "orders").passed = false ∧
    (validate_iceberg_table envBadField "/tmp/wh" "orders").calls =
      [ExtCall.loadTable] ∧
    noCategory Category.snapshot
      (validate_iceberg_table envBadField "/tmp/wh" "orders").findings ∧
    noCategory Category.scan
      (validate_iceberg_table envBadField "/tmp/wh" "orders").findings := by
  refine ⟨by decide, by decide, by decide, by decide, by decide⟩

/-- C2 (amended): for every table whose metadata loads and whose schema
has a field with `field_id <= 0`, the condition is terminal: the run
returns failed right after the schema check, the scan is never attempted,
and no snapshot- or scan-category finding appears in the report. -/
theorem c2_nonpositive_field_id_is_terminal (env : Env) (wp tn : String)
    (t : IcebergTable)
    (hp : env.pathExists = true) (hl : env.loadResult = .ok t)
    (hbad : ∃ f ∈ t.schema.fields, f.field_id ≤ 0) :
    (validate_iceberg_table env wp tn).passed = false ∧
    (validate_iceberg_table env wp tn).calls = [ExtCall.loadTable] ∧
    noCategory Category.snapshot
      (validate_iceberg_table env wp tn).findings ∧
    noCategory Category.scan (validate_iceberg_table env wp tn).findings := by
  obtain ⟨f, hf, hid⟩ := hbad
  have hflag := fieldLoop_flag_true hf hid
  have hshape := validate_fieldIssues env wp tn t hp hl hflag
  have hpass : (validate_iceberg_table env wp tn).passed = false := by
    rw [hshape]
  have hcalls : (validate_iceberg_table env wp tn).calls =
      [ExtCall.loadTable] := by
    rw [hshape]
  have hfind : (validate_iceberg_table env wp tn).findings =
      loadFindings t tn ++ schemaHeaderFindings t.schema ++
        (fieldLoop t.schema.fields).1 ++ [fieldIssuesFinding] := by
    rw [hshape]
  have hcat : ∀ g ∈ (validate_iceberg_table env wp tn).findings,
      g.category = Category.metadata ∨ g.category = Category.schema := by
    intro g hg
    rw [hfind] at hg
    rcases List.mem_append.mp hg with h | h
    · rcases List.mem_append.mp h with h2 | h2
      · rcases List.mem_append.mp h2 with h3 | h3
        · exact Or.inl (cat_loadFindings t tn g h3)
        · exact Or.inr (cat_schemaHeader t.schema g h3)
      · exact Or.inr (cat_fieldLoop t.schema.fields g h2)
    · simp at h
      subst h
      exact Or.inr rfl
  refine ⟨hpass, hcalls, ?_, ?_⟩ <;> intro g hg <;>
    rcases hcat g hg with h | h <;> simp [h]

/-- C2 witness: the same concrete bad-field table as the counterexample,
run through the amended statement. -/
theorem c2_witness :
    (validate_iceberg_table envBadField "/tmp/wh" "orders").passed = false ∧
    (validate_iceberg_table envBadField "/tmp/wh" "orders").calls =
      [ExtCall.loadTable] ∧
    noCategory Category.snapshot
      (validate_iceberg_table envBadField "/tmp/wh" "orders").findings ∧
    noCategory Category.scan
      (validate_iceberg_table envBadField "/tmp/wh" "orders").findings :=
  c2_nonpositive_field_id_is_terminal envBadField "/tmp/wh" "orders"
    sampleBadFieldTable rfl rfl ⟨sampleBadField, by decide, by decide⟩

/-- C3: when the warehouse path does not exist the run fails with exactly
the single ERROR finding naming the path, and no external call — in
particular no catalog resolution — is attempted. -/
theorem c3_warehouse_missing_terminal (env : Env) (wp tn : String)
    (h : env.pathExists = false) :
    (validate_iceberg_table env wp tn).passed = false ∧
    (validate_iceberg_table env wp tn).findings =
      [⟨.error, .metadata, warehouseMissingMsg wp⟩] ∧
    (validate_iceberg_table env wp tn).calls = [] := by
  have hshape := validate_noPath env wp tn h
  exact ⟨by rw [hshape], by rw [hshape], by rw [hshape]⟩

/-- C3 witness: a missing warehouse path. -/
theorem c3_witness :
    (validate_iceberg_table envNoPath "/tmp/wh" "orders").passed = false ∧
    (validate_iceberg_table envNoPath "/tmp/wh" "orders").findings =
      [⟨.error, .metadata, warehouseMissingMsg "/tmp/wh"⟩] ∧
    (validate_iceberg_table envNoPath "/tmp/wh" "orders").calls = [] :=
  c3_warehouse_missing_terminal envNoPath "/tmp/wh" "orders" rfl

/-- C4: when the table name is absent from the warehouse
(`NoSuchTableError`), the run fails; the findings are exactly the ERROR
naming the missing table plus its INFO detail line, every finding has
category metadata, the ERROR-severity findings are exactly that one
finding, and no schema-, snapshot- or scan-category finding exists. -/
theorem c4_table_not_found (env : Env) (wp tn : String)
    (hp : env.pathExists = true)
    (hl : env.loadResult = .error .noSuchTable) :
    (validate_iceberg_table env wp tn).passed = false ∧
    (validate_iceberg_table env wp tn).findings =
      [⟨.error, .metadata, tableNotFoundMsg tn⟩,
       ⟨.info, .metadata, verifyTableMsg wp⟩] ∧
    (validate_iceberg_table env wp tn).findings.filter
      (fun g => g.severity == Severity.error) =
      [⟨.error, .metadata, tableNotFoundMsg tn⟩] ∧
    noCategory Category.schema (validate_iceberg_table env wp tn).findings ∧
    noCategory Category.snapshot
      (validate_iceberg_table env wp tn).findings ∧
    noCategory Category.scan (validate_iceberg_table env wp tn).findings := by
  have hshape := validate_loadError env wp tn .noSuchTable hp hl
  have hfind : (validate_iceberg_table env wp tn).findings =
      [⟨.error, .metadata, tableNotFoundMsg tn⟩,
       ⟨.info, .metadata, verifyTableMsg wp⟩] := by
    rw [hshape]
    rfl
  have hcat : ∀ g ∈ (validate_iceberg_table env wp tn).findings,
      g.category = Category.metadata := by
    intro g hg
    rw [hfind] at hg
    simp at hg
    rcases hg with rfl | rfl <;> rfl
  refine ⟨by rw [hshape], hfind, ?_, ?_, ?_, ?_⟩
  · rw [hfind]
    rfl
  all_goals intro g hg
  all_goals rw [hcat g hg]
  all_goals simp

/-- C4 witness: a warehouse that exists but does not contain the table. -/
theorem c4_witness :
    (validate_iceberg_table envNoTable "/tmp/wh" "orders").passed = false ∧
    (validate_iceberg_table envNoTable "/tmp/wh" "orders").findings =
      [⟨.error, .metadata, tableNotFoundMsg "orders"⟩,
       ⟨.info, .metadata, verifyTableMsg "/tmp/wh"⟩] ∧
    (validate_iceberg_table envNoTable "/tmp/wh" "orders").findings.filter
      (fun g => g.severity == Severity.error) =
      [⟨.error, .metadata, tableNotFoundMsg "orders"⟩] ∧
    noCategory Category.schema
      (validate_iceberg_table envNoTable "/tmp/wh" "orders").findings ∧
    noCategory Category.snapshot
      (validate_iceberg_table envNoTable "/tmp/wh" "orders").findings ∧
    noCategory Category.scan
      (validate_iceberg_table envNoTable "/tmp/wh" "orders").findings :=
  c4_table_not_found envNoTable "/tmp/wh" "orders" rfl rfl

/-- C5: for every valid v2 table (warehouse present, metadata loads,
format version 2, only positive field ids, at least one snapshot, the
snapshot listing and final metadata step raise nothing, and the scan
decodes whenever a current snapshot exists), the verdict is `true` and no
ERROR-severity finding is in the report. -/
theorem c5_valid_table_passes (env : Env) (wp tn : String)
    (t : IcebergTable)
    (hp : env.pathExists = true) (hl : env.loadResult = .ok t)
    (hv : t.metadata.format_version = 2)
    (hpos : ∀ f ∈ t.schema.fields, 0 < f.field_id)
    (hsnap : t.metadata.snapshots ≠ [])
    (hsf : env.snapshotsFault = none) (hmf : env.metaFault = none)
    (hscan : ∀ cs, t.metadata.current_snapshot = some cs →
      ∃ df, env.scanResult = .ok df) :
    (validate_iceberg_table env wp tn).passed = true ∧
    noError (validate_iceberg_table env wp tn).findings := by
  have hflag := fieldLoop_flag_false hpos
  cases hcur : t.metadata.current_snapshot with
  | none =>
    have hshape := validate_currentNone env wp tn t hp hl hflag hsf hcur hmf
    have hfind : (validate_iceberg_table env wp tn).findings =
        loadFindings t tn ++ schemaHeaderFindings t.schema ++
          (fieldLoop t.schema.fields).1 ++
          snapshotListFindings t.metadata.snapshots ++
          [⟨.warning, .snapshot, "No current snapshot (empty table)"⟩] ++
          metaTailFindings t tn := by
      rw [hshape]
    refine ⟨by rw [hshape], ?_⟩
    rw [hfind]
    simp only [noError_append]
    exact ⟨⟨⟨⟨⟨noError_loadFindings t tn, noError_schemaHeader t.schema⟩,
      noError_fieldLoop t.schema.fields⟩,
      noError_snapshotList t.metadata.snapshots⟩,
      noError_warn_single _ _⟩, noError_metaTail t tn⟩
  | some cs =>
    obtain ⟨df, hdf⟩ := hscan cs hcur
    have hshape := validate_currentSome env wp tn t cs df hp hl hflag hsf
      hcur hdf hmf
    have hfind : (validate_iceberg_table env wp tn).findings =
        loadFindings t tn ++ schemaHeaderFindings t.schema ++
          (fieldLoop t.schema.fields).1 ++
          snapshotListFindings t.metadata.snapshots ++
          [⟨.info, .snapshot, currentSnapshotMsg cs.snapshot_id⟩,
           ⟨.info, .scan, "Scanning table data..."⟩] ++
          scanFindings df ++ metaTailFindings t tn := by
      rw [hshape]
    refine ⟨by rw [hshape], ?_⟩
    rw [hfind]
    simp only [noError_append]
    exact ⟨⟨⟨⟨⟨⟨noError_loadFindings t tn, noError_schemaHeader t.schema⟩,
      noError_fieldLoop t.schema.fields⟩,
      noError_snapshotList t.metadata.snapshots⟩,
      noError_info_pair _ _ _ _⟩,
      noError_scanFindings df⟩, noError_metaTail t tn⟩

/-- C5 witness: the healthy two-field table with one snapshot and a
readable scan. -/
theorem c5_witness :
    (validate_iceberg_table envGood "/tmp/wh" "orders").passed = true ∧
    noError (validate_iceberg_table envGood "/tmp/wh" "orders").findings :=
  c5_valid_table_passes envGood "/tmp/wh" "orders" sampleGoodTable rfl rfl
    rfl (by decide) (by decide) rfl rfl (fun _ _ => ⟨sampleDF, rfl⟩)

/-- C6: for a table with an empty snapshot sequence (and otherwise valid
metadata and schema, so in particular no current snapshot), the empty-list
WARNING is recorded, the scan is never attempted, and the verdict is still
`true` — the condition alone does not fail the run. -/
theorem c6_empty_snapshots_warn_only (env : Env) (wp tn : String)
    (t : IcebergTable)
    (hp : env.pathExists = true) (hl : env.loadResult = .ok t)
    (hpos : ∀ f ∈ t.schema.fields, 0 < f.field_id)
    (hsnap : t.metadata.snapshots = [])
    (hcur : t.metadata.current_snapshot = none)
    (hsf : env.snapshotsFault = none) (hmf : env.metaFault = none) :
    (validate_iceberg_table env wp tn).passed = true ∧
    (⟨.warning, .snapshot, "WARNING: No snapshots found (table is empty)"⟩ :
      Finding) ∈ (validate_iceberg_table env wp tn).findings ∧
    ExtCall.scan ∉ (validate_iceberg_table env wp tn).calls := by
  have hflag := fieldLoop_flag_false hpos
  have hshape := validate_currentNone env wp tn t hp hl hflag hsf hcur hmf
  have hfind : (validate_iceberg_table env wp tn).findings =
      loadFindings t tn ++ schemaHeaderFindings t.schema ++
        (fieldLoop t.schema.fields).1 ++
        snapshotListFindings t.metadata.snapshots ++
        [⟨.warning, .snapshot, "No current snapshot (empty table)"⟩] ++
        metaTailFindings t tn := by
    rw [hshape]
  have hcalls : (validate_iceberg_table env wp tn).calls =
      [ExtCall.loadTable] := by
    rw [hshape]
  refine ⟨by rw [hshape], ?_, ?_⟩
  · rw [hfind, hsnap]
    simp only [List.mem_append]
    refine Or.inl (Or.inl (Or.inr ?_))
    simp [snapshotListFindings]
  · rw [hcalls]
    decide

/-- C6 witness: the empty table. -/
theorem c6_witness :
    (validate_iceberg_table envEmpty "/tmp/wh" "orders").passed = true ∧
    (⟨.warning, .snapshot, "WARNING: No snapshots found (table is empty)"⟩ :
      Finding) ∈
      (validate_iceberg_table envEmpty "/tmp/wh" "orders").findings ∧
    ExtCall.scan ∉ (validate_iceberg_table envEmpty "/tmp/wh" "orders").calls :=
  c6_empty_snapshots_warn_only envEmpty "/tmp/wh" "orders" sampleEmptyTable
    rfl rfl (by decide) rfl rfl rfl rfl

/-- C7: with a wrong positional-argument count `main` exits 1 without
validating; with exactly two positional arguments (`argv` of length 3,
program name included) it validates and exits 0 exactly when the run
passed and 1 exactly when it failed. -/
theorem c7_cli_exit_codes (env : Env) (argv : List String) :
    (argv.length ≠ 3 → main_run env argv = ⟨1, false⟩) ∧
    (argv.length = 3 →
      (main_run env argv).attempted = true ∧
      ((main_run env argv).exit_code = 0 ↔
        (validate_iceberg_table env (argv.getD 1 "")
          (argv.getD 2 "")).passed = true) ∧
      ((main_run env argv).exit_code = 1 ↔
        (validate_iceberg_table env (argv.getD 1 "")
          (argv.getD 2 "")).passed = false)) := by
  constructor
  · intro h
    simp [main_run, h]
  · intro h
    simp only [main_run, h]
    cases hpass : (validate_iceberg_table env (argv.getD 1 "")
        (argv.getD 2 "")).passed <;> simp [hpass]

/-- C7 witness: a one-argument call exits 1 without validating; a correct
call against a missing warehouse exits 1; a correct call against a healthy
table exits 0. -/
theorem c7_witness :
    main_run envNoPath ["validate-with-pyiceberg.py"] = ⟨1, false⟩ ∧
    (main_run envNoPath
      ["validate-with-pyiceberg.py", "/tmp/wh", "orders"]).exit_code = 1 ∧
    (main_run envGood
      ["validate-with-pyiceberg.py", "/tmp/wh", "orders"]).exit_code = 0 := by
  refine ⟨(c7_cli_exit_codes envNoPath
    ["validate-with-pyiceberg.py"]).1 (by decide), ?_, ?_⟩
  · exact ((c7_cli_exit_codes envNoPath
      ["validate-with-pyiceberg.py", "/tmp/wh", "orders"]).2
        (by decide)).2.2.mpr (by decide)
  · exact ((c7_cli_exit_codes envGood
      ["validate-with-pyiceberg.py", "/tmp/wh", "orders"]).2
        (by decide)).2.1.mpr (by decide)

/-- C8: the validator is deterministic — two runs against the same
point-in-time table state yield the identical ordered finding list and
the same verdict (the model carries no run clock, randomness or retry
state; findings depend only on the `Env`, path and name). -/
theorem c8_deterministic (env : Env) (wp tn : String) :
    (runTwice env wp tn).1.findings = (runTwice env wp tn).2.findings ∧
    (runTwice env wp tn).1.passed = (runTwice env wp tn).2.passed :=
  ⟨rfl, rfl⟩

/-- C9: `validate_iceberg_table` is total at its boundary — whenever the
`try`-body raises any exception, the wrapper returns `false`, keeps the
findings printed so far, appends the matching handler's findings, and
those handler findings contain exactly one ERROR, carrying the underlying
cause message. -/
theorem c9_exceptions_become_single_error (env : Env) (wp tn : String)
    (e : PyExc)
    (h : (validateBody env wp tn).outcome = .error e) :
    (validate_iceberg_table env wp tn).passed = false ∧
    (validate_iceberg_table env wp tn).findings =
      (validateBody env wp tn).findings ++ handlerFindings e wp tn ∧
    (handlerFindings e wp tn).filter
      (fun g => g.severity == Severity.error) =
      [⟨.error, .metadata, handlerErrorMsg e tn⟩] := by
  refine ⟨?_, ?_, ?_⟩
  · simp [validate_iceberg_table, h]
  · simp [validate_iceberg_table, h]
  · cases e <;> rfl

/-- C9 witness: a generic store error raised while resolving the table. -/
theorem c9_witness :
    (validate_iceberg_table envRaise "/tmp/wh" "orders").passed = false ∧
    (validate_iceberg_table envRaise "/tmp/wh" "orders").findings =
      (validateBody envRaise "/tmp/wh" "orders").findings ++
        handlerFindings (.other "boom") "/tmp/wh" "orders" ∧
    (handlerFindings (.other "boom") "/tmp/wh" "orders").filter
      (fun g => g.severity == Severity.error) =
      [⟨.error, .metadata, handlerErrorMsg (.other "boom") "orders"⟩] :=
  c9_exceptions_become_single_error envRaise "/tmp/wh" "orders"
    (.other "boom") rfl

/-- C10: once the schema check succeeds, whether the scan runs depends
only on the current-snapshot pointer: the scan call is attempted exactly
when a current snapshot is reported (whatever the snapshot list holds),
and when none is reported the skip is recorded with the no-current-snapshot
WARNING. -/
theorem c10_scan_follows_current_pointer (env : Env) (wp tn : String)
    (t : IcebergTable)
    (hp : env.pathExists = true) (hl : env.loadResult = .ok t)
    (hpos : ∀ f ∈ t.schema.fields, 0 < f.field_id)
    (hsf : env.snapshotsFault = none) :
    (ExtCall.scan ∈ (validate_iceberg_table env wp tn).calls ↔
      t.metadata.current_snapshot.isSome = true) ∧
    (t.metadata.current_snapshot = none →
      (⟨.warning, .snapshot, "No current snapshot (empty table)"⟩ :
        Finding) ∈ (validate_iceberg_table env wp tn).findings) := by
  have hflag := fieldLoop_flag_false hpos
  cases hcur : t.metadata.current_snapshot with
  | some cs =>
    have hcalls := validate_calls_currentSome env wp tn t cs hp hl hflag
      hsf hcur
    constructor
    · rw [hcalls]
      simp
    · intro hnone
      simp at hnone
  | none =>
    have hcalls := validate_calls_currentNone env wp tn t hp hl hflag
      hsf hcur
    constructor
    · rw [hcalls]
      simp
    · intro _
      exact validate_mem_warnNoCurrent env wp tn t hp hl hflag hsf hcur

/-- C10 witness: a table reporting a current snapshot although its
snapshot list is empty — the scan is still attempted. -/
theorem c10_witness :
    sampleCurNoListTable.metadata.snapshots = [] ∧
    ExtCall.scan ∈
      (validate_iceberg_table envCurNoList "/tmp/wh" "orders").calls :=
  ⟨rfl,
   ((c10_scan_follows_current_pointer envCurNoList "/tmp/wh" "orders"
      sampleCurNoListTable rfl rfl (by decide) rfl).1).mpr (by decide)⟩

end ValidatePyIceberg
